import Mathlib

/-!
Verification of the NGROK_TUNNEL reverse-tunneling gateway.

Shallow embedding of the server core (`src/tunnel/message_protocol.py`,
`src/tunnel/tunnel_manager.py`, `src/tunnel/tunnel_models.py`), the ingress
proxy (`src/api/proxy_handler.py`), the websocket handler
(`src/api/tunnel_websocket.py`), the control API (`src/api/tunnel_api.py`)
and the owner-side client (`src/client/tunnel_client.py`).

Conventions:
* Python `bytes` values are `List Nat` with every element `< 256`.
* Python `str` values that the codec does arithmetic on are `List Nat`
  of Unicode code points; identifier-like strings (tunnel ids, tokens,
  header names in the registry models) are Lean `String`s.
* Wall-clock instants are `Nat` seconds.
-/

set_option maxRecDepth 4000

/-- Code points of a Lean string literal, used to write Python string
constants from the source as `List Nat`. -/
def pstr (s : String) : List Nat := s.toList.map Char.toNat

/-- Python `str.lower()` restricted to the ASCII range, which is all the
source ever lowercases (header names and media types are ASCII). -/
def pyLower (s : List Nat) : List Nat :=
  s.map (fun c => if 65 ≤ c ∧ c ≤ 90 then c + 32 else c)

/-! ## Base64 (Python `base64.b64encode` / `base64.b64decode`) -/

/-- The standard base64 alphabet: sextet value to character code. -/
def b64Char (n : Nat) : Nat :=
  if n < 26 then 65 + n
  else if n < 52 then 97 + (n - 26)
  else if n < 62 then 48 + (n - 52)
  else if n = 62 then 43
  else 47

/-- Character code back to sextet value; `none` off the alphabet. -/
def b64CharInv (c : Nat) : Option Nat :=
  if 65 ≤ c ∧ c ≤ 90 then some (c - 65)
  else if 97 ≤ c ∧ c ≤ 122 then some (c - 97 + 26)
  else if 48 ≤ c ∧ c ≤ 57 then some (c - 48 + 52)
  else if c = 43 then some 62
  else if c = 47 then some 63
  else none

/-- `base64.b64encode` on a byte list, producing the character codes of the
ASCII result (these double as its UTF-8 bytes).  61 is `=` padding. -/
def b64Encode : List Nat → List Nat
  | b0 :: b1 :: b2 :: rest =>
      b64Char (b0 / 4) :: b64Char (b0 % 4 * 16 + b1 / 16) ::
      b64Char (b1 % 16 * 4 + b2 / 64) :: b64Char (b2 % 64) :: b64Encode rest
  | [b0, b1] => [b64Char (b0 / 4), b64Char (b0 % 4 * 16 + b1 / 16), b64Char (b1 % 16 * 4), 61]
  | [b0] => [b64Char (b0 / 4), b64Char (b0 % 4 * 16), 61, 61]
  | [] => []

/-- `base64.b64decode`: groups of four characters, `=` padding allowed only
in the final group; `none` models `binascii.Error`. -/
def b64Decode : List Nat → Option (List Nat)
  | [] => some []
  | c0 :: c1 :: c2 :: c3 :: rest =>
      match b64CharInv c0, b64CharInv c1 with
      | some s0, some s1 =>
          if c2 = 61 ∧ c3 = 61 ∧ rest = [] then
            some [s0 * 4 + s1 / 16]
          else if c3 = 61 ∧ rest = [] then
            match b64CharInv c2 with
            | some s2 => some [s0 * 4 + s1 / 16, s1 % 16 * 16 + s2 / 4]
            | none => none
          else
            match b64CharInv c2, b64CharInv c3 with
            | some s2, some s3 =>
                (fun tail => (s0 * 4 + s1 / 16) :: (s1 % 16 * 16 + s2 / 4) ::
                  (s2 % 4 * 64 + s3) :: tail) <$> b64Decode rest
            | _, _ => none
      | _, _ => none
  | _ => none

lemma b64CharInv_b64Char {n : Nat} (h : n < 64) : b64CharInv (b64Char n) = some n := by
  interval_cases n <;> rfl

lemma b64Char_ne_61 {n : Nat} (h : n < 64) : b64Char n ≠ 61 := by
  interval_cases n <;> decide

lemma b64Decode_b64Encode {bs : List Nat} (h : ∀ b ∈ bs, b < 256) :
    b64Decode (b64Encode bs) = some bs := by
  induction bs using b64Encode.induct with
  | case1 b0 b1 b2 rest ih =>
      have hb0 : b0 < 256 := h b0 (by simp)
      have hb1 : b1 < 256 := h b1 (by simp)
      have hb2 : b2 < 256 := h b2 (by simp)
      have h0 : b0 / 4 < 64 := by omega
      have h1 : b0 % 4 * 16 + b1 / 16 < 64 := by omega
      have h2 : b1 % 16 * 4 + b2 / 64 < 64 := by omega
      have h3 : b2 % 64 < 64 := by omega
      have ih' := ih (fun b hb => h b (by simp [hb]))
      simp only [b64Encode, b64Decode, b64CharInv_b64Char h0, b64CharInv_b64Char h1,
        b64CharInv_b64Char h2, b64CharInv_b64Char h3]
      rw [if_neg (by exact fun hc => b64Char_ne_61 h2 hc.1),
        if_neg (by exact fun hc => b64Char_ne_61 h3 hc.1)]
      rw [ih']
      have e0 : b0 / 4 * 4 + (b0 % 4 * 16 + b1 / 16) / 16 = b0 := by omega
      have e1 : (b0 % 4 * 16 + b1 / 16) % 16 * 16 + (b1 % 16 * 4 + b2 / 64) / 4 = b1 := by
        omega
      have e2 : (b1 % 16 * 4 + b2 / 64) % 4 * 64 + b2 % 64 = b2 := by omega
      simp [e0, e1, e2]
  | case2 b0 b1 =>
      have hb0 : b0 < 256 := h b0 (by simp)
      have hb1 : b1 < 256 := h b1 (by simp)
      have h0 : b0 / 4 < 64 := by omega
      have h1 : b0 % 4 * 16 + b1 / 16 < 64 := by omega
      have h2 : b0 % 4 * 16 + b1 / 16 < 64 := h1
      have h2' : b1 % 16 * 4 < 64 := by omega
      simp only [b64Encode, b64Decode, b64CharInv_b64Char h0, b64CharInv_b64Char h1,
        b64CharInv_b64Char h2']
      rw [if_neg (by exact fun hc => b64Char_ne_61 h2' hc.1), if_pos (by simp)]
      congr 1
      have e0 : b0 / 4 * 4 + (b0 % 4 * 16 + b1 / 16) / 16 = b0 := by omega
      have e1 : (b0 % 4 * 16 + b1 / 16) % 16 * 16 + b1 % 16 * 4 / 4 = b1 := by omega
      rw [e0, e1]
  | case3 b0 =>
      have hb0 : b0 < 256 := h b0 (by simp)
      have h0 : b0 / 4 < 64 := by omega
      have h1 : b0 % 4 * 16 < 64 := by omega
      simp only [b64Encode, b64Decode, b64CharInv_b64Char h0, b64CharInv_b64Char h1]
      rw [if_pos (by simp)]
      congr 1
      have e0 : b0 / 4 * 4 + b0 % 4 * 16 / 16 = b0 := by omega
      rw [e0]
  | case4 => rfl

lemma b64Encode_ne_nil {bs : List Nat} (h : bs ≠ []) : b64Encode bs ≠ [] := by
  match bs with
  | [] => exact absurd rfl h
  | [b0] => simp [b64Encode]
  | [b0, b1] => simp [b64Encode]
  | b0 :: b1 :: b2 :: rest => simp [b64Encode]

/-! ## Strict UTF-8 (Python `bytes.decode(\x22utf-8\x22)` / `str.encode(\x22utf-8\x22)`)

Python's strict `utf-8` codec accepts exactly the canonical encodings:
no overlong forms, no surrogates (U+D800–U+DFFF), nothing above U+10FFFF.
`utf8Decode` returns the code-point sequence or `none` on
`UnicodeDecodeError`; `utf8Encode` is `str.encode` (total on the
code points a strict decode can produce). -/

/-- One two-byte sequence (lead byte `b` in C2–DF): code point and remaining bytes. -/
def utf8DecodeTwo (b : Nat) : List Nat → Option (Nat × List Nat)
  | b1 :: rest2 =>
    if 128 ≤ b1 ∧ b1 < 192 then some ((b - 192) * 64 + (b1 - 128), rest2) else none
  | [] => none

/-- One three-byte sequence (lead byte `b` in E0–EF); the E0/ED constraints
exclude overlong forms and surrogates, as Python's strict codec does. -/
def utf8DecodeThree (b : Nat) : List Nat → Option (Nat × List Nat)
  | b1 :: b2 :: rest3 =>
    if (128 ≤ b1 ∧ b1 < 192) ∧ (128 ≤ b2 ∧ b2 < 192) ∧
        (b ≠ 224 ∨ 160 ≤ b1) ∧ (b ≠ 237 ∨ b1 < 160) then
      some ((b - 224) * 4096 + (b1 - 128) * 64 + (b2 - 128), rest3)
    else none
  | _ => none

/-- One four-byte sequence (lead byte `b` in F0–F4); the F0/F4 constraints
exclude overlong forms and code points above U+10FFFF. -/
def utf8DecodeFour (b : Nat) : List Nat → Option (Nat × List Nat)
  | b1 :: b2 :: b3 :: rest4 =>
    if (128 ≤ b1 ∧ b1 < 192) ∧ (128 ≤ b2 ∧ b2 < 192) ∧ (128 ≤ b3 ∧ b3 < 192) ∧
        (b ≠ 240 ∨ 144 ≤ b1) ∧ (b ≠ 244 ∨ b1 < 144) then
      some ((b - 240) * 262144 + (b1 - 128) * 4096 + (b2 - 128) * 64 + (b3 - 128), rest4)
    else none
  | _ => none

/-- Decode one code point from lead byte `b` followed by `rest`. -/
def utf8DecodeOne (b : Nat) (rest : List Nat) : Option (Nat × List Nat) :=
  if b < 128 then some (b, rest)
  else if b < 194 then none
  else if b < 224 then utf8DecodeTwo b rest
  else if b < 240 then utf8DecodeThree b rest
  else if b < 245 then utf8DecodeFour b rest
  else none

lemma utf8DecodeOne_length {b : Nat} {rest : List Nat} {c : Nat} {rest' : List Nat}
    (h : utf8DecodeOne b rest = some (c, rest')) : rest'.length ≤ rest.length := by
  unfold utf8DecodeOne at h
  split_ifs at h
  · cases h; exact le_refl _
  · rcases rest with _ | ⟨b1, rest2⟩
    · simp [utf8DecodeTwo] at h
    · simp only [utf8DecodeTwo] at h
      split_ifs at h
      cases h
      simp only [List.length_cons]
      omega
  · rcases rest with _ | ⟨b1, _ | ⟨b2, rest3⟩⟩
    · simp [utf8DecodeThree] at h
    · simp [utf8DecodeThree] at h
    · simp only [utf8DecodeThree] at h
      split_ifs at h
      cases h
      simp only [List.length_cons]
      omega
  · rcases rest with _ | ⟨b1, _ | ⟨b2, _ | ⟨b3, rest4⟩⟩⟩
    · simp [utf8DecodeFour] at h
    · simp [utf8DecodeFour] at h
    · simp [utf8DecodeFour] at h
    · simp only [utf8DecodeFour] at h
      split_ifs at h
      cases h
      simp only [List.length_cons]
      omega

/-- Strict UTF-8 decoder on byte lists, yielding code points. -/
def utf8Decode : List Nat → Option (List Nat)
  | [] => some []
  | b :: rest =>
    match h : utf8DecodeOne b rest with
    | some (c, rest') => Option.map (fun cs => c :: cs) (utf8Decode rest')
    | none => none
termination_by bs => bs.length
decreasing_by
  have := utf8DecodeOne_length h
  simp only [List.length_cons]
  omega

/-- UTF-8 encoding of one code point. -/
def utf8EncodeChar (c : Nat) : List Nat :=
  if c < 0x80 then [c]
  else if c < 0x800 then [0xC0 + c / 64, 0x80 + c % 64]
  else if c < 0x10000 then [0xE0 + c / 4096, 0x80 + c / 64 % 64, 0x80 + c % 64]
  else [0xF0 + c / 262144, 0x80 + c / 4096 % 64, 0x80 + c / 64 % 64, 0x80 + c % 64]

/-- `str.encode(\x22utf-8\x22)` on a code-point list. -/
def utf8Encode (cs : List Nat) : List Nat := (cs.map utf8EncodeChar).flatten

lemma utf8Encode_cons (c : Nat) (cs : List Nat) :
    utf8Encode (c :: cs) = utf8EncodeChar c ++ utf8Encode cs := by
  simp [utf8Encode]

lemma utf8EncodeChar_two {b b1 : Nat} (hb : 194 ≤ b) (hb' : b < 224)
    (h1 : 128 ≤ b1) (h1' : b1 < 192) :
    utf8EncodeChar ((b - 192) * 64 + (b1 - 128)) = [b, b1] := by
  unfold utf8EncodeChar
  rw [if_neg (by omega), if_pos (by omega)]
  have e0 : 192 + ((b - 192) * 64 + (b1 - 128)) / 64 = b := by omega
  have e1 : 128 + ((b - 192) * 64 + (b1 - 128)) % 64 = b1 := by omega
  rw [e0, e1]

lemma utf8EncodeChar_three {b b1 b2 : Nat} (hb : 224 ≤ b) (hb' : b < 240)
    (h1 : 128 ≤ b1) (h1' : b1 < 192) (h2 : 128 ≤ b2) (h2' : b2 < 192)
    (hE0 : b ≠ 224 ∨ 160 ≤ b1) :
    utf8EncodeChar ((b - 224) * 4096 + (b1 - 128) * 64 + (b2 - 128)) = [b, b1, b2] := by
  have hge : 2048 ≤ (b - 224) * 4096 + (b1 - 128) * 64 + (b2 - 128) := by
    rcases hE0 with hE0 | hE0 <;> omega
  unfold utf8EncodeChar
  rw [if_neg (by omega), if_neg (by omega), if_pos (by omega)]
  have e0 : 224 + ((b - 224) * 4096 + (b1 - 128) * 64 + (b2 - 128)) / 4096 = b := by omega
  have e1 : 128 + ((b - 224) * 4096 + (b1 - 128) * 64 + (b2 - 128)) / 64 % 64 = b1 := by omega
  have e2 : 128 + ((b - 224) * 4096 + (b1 - 128) * 64 + (b2 - 128)) % 64 = b2 := by omega
  rw [e0, e1, e2]

lemma utf8EncodeChar_four {b b1 b2 b3 : Nat} (hb : 240 ≤ b) (hb' : b < 245)
    (h1 : 128 ≤ b1) (h1' : b1 < 192) (h2 : 128 ≤ b2) (h2' : b2 < 192)
    (h3 : 128 ≤ b3) (h3' : b3 < 192) (hF0 : b ≠ 240 ∨ 144 ≤ b1) :
    utf8EncodeChar ((b - 240) * 262144 + (b1 - 128) * 4096 + (b2 - 128) * 64 + (b3 - 128)) =
      [b, b1, b2, b3] := by
  have hge : 65536 ≤ (b - 240) * 262144 + (b1 - 128) * 4096 + (b2 - 128) * 64 + (b3 - 128) := by
    rcases hF0 with hF0 | hF0 <;> omega
  unfold utf8EncodeChar
  rw [if_neg (by omega), if_neg (by omega), if_neg (by omega)]
  have e0 :
      240 + ((b - 240) * 262144 + (b1 - 128) * 4096 + (b2 - 128) * 64 + (b3 - 128)) / 262144 =
        b := by omega
  have e1 :
      128 + ((b - 240) * 262144 + (b1 - 128) * 4096 + (b2 - 128) * 64 + (b3 - 128)) / 4096 % 64 =
        b1 := by omega
  have e2 :
      128 + ((b - 240) * 262144 + (b1 - 128) * 4096 + (b2 - 128) * 64 + (b3 - 128)) / 64 % 64 =
        b2 := by omega
  have e3 :
      128 + ((b - 240) * 262144 + (b1 - 128) * 4096 + (b2 - 128) * 64 + (b3 - 128)) % 64 =
        b3 := by omega
  rw [e0, e1, e2, e3]

/-- A successfully decoded code point re-encodes to exactly the bytes consumed. -/
lemma utf8DecodeOne_sound {b : Nat} {rest : List Nat} {c : Nat} {rest' : List Nat}
    (h : utf8DecodeOne b rest = some (c, rest')) :
    utf8EncodeChar c ++ rest' = b :: rest := by
  unfold utf8DecodeOne at h
  split_ifs at h with h1 h2 h3 h4 h5
  · cases h
    simp [utf8EncodeChar, if_pos h1]
  · rcases rest with _ | ⟨b1, rest2⟩
    · simp [utf8DecodeTwo] at h
    · simp only [utf8DecodeTwo] at h
      split_ifs at h with hc
      cases h
      rw [utf8EncodeChar_two (by omega) (by omega) hc.1 hc.2]
      rfl
  · rcases rest with _ | ⟨b1, _ | ⟨b2, rest3⟩⟩
    · simp [utf8DecodeThree] at h
    · simp [utf8DecodeThree] at h
    · simp only [utf8DecodeThree] at h
      split_ifs at h with hc
      obtain ⟨hc1, hc2, hc3, hc4⟩ := hc
      cases h
      rw [utf8EncodeChar_three (by omega) (by omega) hc1.1 hc1.2 hc2.1 hc2.2 hc3]
      rfl
  · rcases rest with _ | ⟨b1, _ | ⟨b2, _ | ⟨b3, rest4⟩⟩⟩
    · simp [utf8DecodeFour] at h
    · simp [utf8DecodeFour] at h
    · simp [utf8DecodeFour] at h
    · simp only [utf8DecodeFour] at h
      split_ifs at h with hc
      obtain ⟨hc1, hc2, hc3, hc4, hc5⟩ := hc
      cases h
      rw [utf8EncodeChar_four (by omega) (by omega) hc1.1 hc1.2 hc2.1 hc2.2 hc3.1 hc3.2 hc4]
      rfl

/-- Strict UTF-8 decoding is a section of encoding: any byte string the
decoder accepts re-encodes to exactly itself. -/
theorem utf8Encode_utf8Decode (bs : List Nat) :
    ∀ cs, utf8Decode bs = some cs → utf8Encode cs = bs := by
  induction bs using utf8Decode.induct with
  | case1 =>
      intro cs h
      simp only [utf8Decode, Option.some.injEq] at h
      subst h; rfl
  | case2 b rest c rest' hone ih =>
      intro cs h
      simp only [utf8Decode] at h
      split at h
      next heq =>
        rw [hone] at heq
        cases heq
        obtain ⟨cs', hdec, hcs⟩ := Option.map_eq_some'.mp h
        replace hcs : c :: cs' = cs := hcs
        subst hcs
        rw [utf8Encode_cons, ih cs' hdec, utf8DecodeOne_sound hone]
      next heq =>
        rw [hone] at heq
        cases heq
  | case3 b rest hone =>
      intro cs h
      simp only [utf8Decode] at h
      split at h
      next heq =>
        rw [hone] at heq
        cases heq
      next => cases h

lemma utf8Decode_cons_ne_nil {b : Nat} {rest cs : List Nat}
    (h : utf8Decode (b :: rest) = some cs) : cs ≠ [] := by
  intro hnil
  subst hnil
  have := utf8Encode_utf8Decode _ _ h
  simp [utf8Encode] at this

/-! ## Binary-body classification (`message_protocol.is_binary_content`,
`TunnelClient._is_binary`) -/

/-- `binary_types` list from `src/tunnel/message_protocol.py:13`. -/
def binary_types : List (List Nat) :=
  [pstr "image/", pstr "video/", pstr "audio/", pstr "application/octet-stream",
    pstr "application/pdf", pstr "application/zip", pstr "application/x-tar"]

/-- `is_binary_content` (`message_protocol.py:11-17`):
`any(bt in content_type.lower() for bt in binary_types)` — Python's `in`
on strings is substring containment. -/
def is_binary_content (content_type : List Nat) : Bool :=
  binary_types.any (fun bt => decide (bt <:+: pyLower content_type))

/-- `binary_types` list of `TunnelClient._is_binary`
(`src/client/tunnel_client.py:307`): five entries only. -/
def client_binary_types : List (List Nat) :=
  [pstr "image/", pstr "video/", pstr "audio/", pstr "application/octet-stream",
    pstr "application/pdf"]

/-- `TunnelClient._is_binary` (`tunnel_client.py:305-308`). -/
def client_is_binary (content_type : List Nat) : Bool :=
  client_binary_types.any (fun bt => decide (bt <:+: pyLower content_type))

/-! ## HTTP body marshalling (`message_protocol.py`, `tunnel_client.py`) -/

/-- The body-relevant outcome of serialization: the `body` string sent in
the envelope (`none` models Python `None`) and whether the
`x-tunnel-body-encoding: base64` header was set. -/
structure SerializedBody where
  body : Option (List Nat)
  marker : Bool
deriving DecidableEq

/-- Body logic of `serialize_request` (`message_protocol.py:39-56`):
empty bytes are falsy so `body` stays `None`; binary-typed bodies are
base64-encoded with the marker; otherwise UTF-8 decode is attempted with
base64 as fallback. -/
def serialize_request_body (content_type body_bytes : List Nat) : SerializedBody :=
  if body_bytes = [] then ⟨none, false⟩
  else if is_binary_content content_type then ⟨some (b64Encode body_bytes), true⟩
  else
    match utf8Decode body_bytes with
    | some s => ⟨some s, false⟩
    | none => ⟨some (b64Encode body_bytes), true⟩

/-- Response-body encoding performed by the client before sending a
`response` envelope (`tunnel_client.py:160-172`); same binary rule with
the client's own `_is_binary`. -/
def client_encode_response_body (content_type response_body : List Nat) : SerializedBody :=
  if client_is_binary content_type then ⟨some (b64Encode response_body), true⟩
  else
    match utf8Decode response_body with
    | some s => ⟨some s, false⟩
    | none => ⟨some (b64Encode response_body), true⟩

/-- Body logic of `deserialize_request` (`message_protocol.py:77-82`):
empty or missing body stays `None` (falsy check); with the
`x-tunnel-body-encoding: base64` marker the body is base64-decoded
(`.error ()` models a raised `binascii.Error`), otherwise it is UTF-8
encoded back to bytes. -/
def deserialize_request_body (sb : SerializedBody) : Except Unit (Option (List Nat)) :=
  match sb.body with
  | none => .ok none
  | some s =>
      if s = [] then .ok none
      else if sb.marker then
        match b64Decode s with
        | some b => .ok (some b)
        | none => .error ()
      else .ok (some (utf8Encode s))

/-- Body logic of `deserialize_response` (`message_protocol.py:142-147`),
textually identical to the request direction. -/
def deserialize_response_body (sb : SerializedBody) : Except Unit (Option (List Nat)) :=
  match sb.body with
  | none => .ok none
  | some s =>
      if s = [] then .ok none
      else if sb.marker then
        match b64Decode s with
        | some b => .ok (some b)
        | none => .error ()
      else .ok (some (utf8Encode s))

lemma deserialize_base64_roundtrip {B : List Nat} (hB : ∀ b ∈ B, b < 256) :
    deserialize_request_body ⟨some (b64Encode B), true⟩ =
      .ok (if B = [] then none else some B) := by
  by_cases hnil : B = []
  · subst hnil
    simp [deserialize_request_body, b64Encode]
  · have h1 := b64Encode_ne_nil hnil
    have h2 := b64Decode_b64Encode hB
    simp [deserialize_request_body, h1, h2, hnil]

lemma deserialize_utf8_roundtrip {B s : List Nat} (hdec : utf8Decode B = some s) :
    deserialize_request_body ⟨some s, false⟩ =
      .ok (if B = [] then none else some B) := by
  by_cases hnil : B = []
  · subst hnil
    have : s = [] := by
      simpa [utf8Decode] using hdec.symm
    subst this
    simp [deserialize_request_body]
  · match B, hnil with
    | b :: rest, _ =>
        have hne := utf8Decode_cons_ne_nil hdec
        have henc := utf8Encode_utf8Decode _ _ hdec
        simp [deserialize_request_body, hne, henc]

/-! ## Tunnel registry (`src/tunnel/tunnel_manager.py`)

`TunnelManager` holds `self.tunnels`, an insertion-ordered dict from
tunnel id to `TunnelConnection`, modelled as an association list with
unique keys.  A websocket channel is an opaque `Nat`; `asyncio.Future`s
in `pending_requests` are modelled by their externally visible state.
Wall-clock `datetime.now(PST)` instants are `Nat` parameters `now`.
The informational `metadata` dict is omitted (never read by the core). -/

/-- `TunnelStatus` (`src/tunnel/tunnel_models.py:10-15`). -/
inductive TunnelStatus where
  | connecting
  | active
  | disconnected
  | expired
deriving DecidableEq

/-- The response payload a `response` envelope fulfills a future with
(`tunnel_websocket.py:108`), reduced to the fields `deserialize_response`
and the proxy reply read: `status_code`, whether the headers carry
`x-tunnel-body-encoding: base64`, and the body string. -/
structure RespPayload where
  status_code : Nat
  marker : Bool
  body : Option (List Nat)
deriving DecidableEq

/-- State of one `asyncio.Future` in `pending_requests`: unresolved,
resolved with a response payload, or failed with `set_exception`. -/
inductive FutureState where
  | pending
  | resolved (d : RespPayload)
  | failedExn (msg : String)
deriving DecidableEq

/-- `TunnelConnection` fields (`tunnel_manager.py:17-38`). -/
structure Tunnel where
  tunnel_id : String
  auth_token : String
  name : Option String
  local_port : Option Nat
  created_at : Nat
  last_active : Nat
  websocket : Option Nat
  status : TunnelStatus
  pending_requests : List (String × FutureState)
deriving DecidableEq

/-- The registry dict `TunnelManager.tunnels`. -/
abbrev Registry := List (String × Tunnel)

/-- `TunnelConnection.__init__` (`tunnel_manager.py:20-38`): both
timestamps are `now`, no websocket, status CONNECTING, empty pending. -/
def mkTunnelConnection (tid tok : String) (name : Option String) (lp : Option Nat)
    (now : Nat) : Tunnel :=
  { tunnel_id := tid, auth_token := tok, name := name, local_port := lp,
    created_at := now, last_active := now, websocket := none,
    status := .connecting, pending_requests := [] }

/-- `self.tunnels.get(tunnel_id)`. -/
def lookupTunnel (reg : Registry) (tid : String) : Option Tunnel :=
  (reg.find? (fun p => p.1 == tid)).map (fun p => p.2)

/-- In-place update of the tunnel object stored under `tid`. -/
def updateTunnel (reg : Registry) (tid : String) (f : Tunnel → Tunnel) : Registry :=
  reg.map (fun p => if p.1 == tid then (p.1, f p.2) else p)

/-- `TunnelManager.create_tunnel` (`tunnel_manager.py:82-120`) after the
random id/token generation: insert a fresh CONNECTING tunnel.  The
collision-retry loop on `generate_tunnel_id` guarantees `tid` is not yet
a key; the id and token are parameters since their generation is random. -/
def create_tunnel (reg : Registry) (tid tok : String) (name : Option String)
    (lp : Option Nat) (now : Nat) : Registry × Tunnel :=
  let t := mkTunnelConnection tid tok name lp now
  (reg ++ [(tid, t)], t)

/-- `TunnelManager.connect_tunnel` (`tunnel_manager.py:122-150`): look up,
compare tokens, then attach the websocket, set ACTIVE and touch
`last_active`.  There is no check on an already-attached channel nor on
DISCONNECTED status. -/
def connect_tunnel (reg : Registry) (tid tok : String) (ws : Nat) (now : Nat) :
    Registry × Bool :=
  match lookupTunnel reg tid with
  | none => (reg, false)
  | some t =>
      if t.auth_token ≠ tok then (reg, false)
      else
        (updateTunnel reg tid (fun t =>
          { t with websocket := some ws, status := .active, last_active := now }), true)

/-- `future.set_exception(Exception(msg))` on every not-yet-done future. -/
def failPendingWith (msg : String) (l : List (String × FutureState)) :
    List (String × FutureState) :=
  l.map (fun p => match p.2 with
    | .pending => (p.1, .failedExn msg)
    | _ => p)

/-- `TunnelManager.disconnect_tunnel` (`tunnel_manager.py:152-170`): clear
the websocket, set DISCONNECTED, fail all pending futures with
`Exception("Tunnel disconnected")`; no-op on an unknown id. -/
def disconnect_tunnel (reg : Registry) (tid : String) : Registry :=
  match lookupTunnel reg tid with
  | none => reg
  | some _ =>
      updateTunnel reg tid (fun t =>
        { t with
          websocket := none
          status := .disconnected
          pending_requests := failPendingWith "Tunnel disconnected" t.pending_requests })

/-- Body of `TunnelManager.delete_tunnel` (`tunnel_manager.py:172-201`)
once the registry lock is held: pop the tunnel, fail its pending futures
with `Exception("Tunnel deleted")` (the futures stay referenced by
awaiting proxies, hence returned), report whether anything was removed.
Closing the popped tunnel's websocket is a channel side effect outside
this state. -/
def delete_tunnel_locked (reg : Registry) (tid : String) :
    Registry × Bool × List (String × FutureState) :=
  match lookupTunnel reg tid with
  | none => (reg, false, [])
  | some t =>
      (reg.filter (fun p => !(p.1 == tid)), true,
        failPendingWith "Tunnel deleted" t.pending_requests)

/-- `TunnelManager.delete_tunnel` including its `async with self.lock`.
`lockHeld` says whether the calling task already holds the registry lock;
`asyncio.Lock` is not reentrant, so a second acquire by the same task
never completes — modelled as `none` (the call blocks forever). -/
def delete_tunnel (lockHeld : Bool) (reg : Registry) (tid : String) :
    Option (Registry × Bool × List (String × FutureState)) :=
  if lockHeld then none else some (delete_tunnel_locked reg tid)

/-- `TunnelConnection.is_expired` (`tunnel_manager.py:44-49`); `now` can
never precede `last_active`, so truncated subtraction is exact. -/
def is_expired (now timeout_seconds : Nat) (t : Tunnel) : Bool :=
  if t.status = .disconnected then true
  else decide (now - t.last_active > timeout_seconds)

/-- `TunnelManager.cleanup_expired_tunnels` (`tunnel_manager.py:212-226`):
under `async with self.lock` it collects the expired ids and then awaits
`self.delete_tunnel` on each — with the registry lock still held, so each
delete call is `delete_tunnel true`.  Result `none` means the sweep never
completes (deadlock). -/
def cleanup_expired_tunnels (reg : Registry) (now timeout_seconds : Nat) :
    Option Registry :=
  let expired := (reg.filter (fun p => is_expired now timeout_seconds p.2)).map
    (fun p => p.1)
  expired.foldlM (fun r tid => (delete_tunnel true r tid).map (fun x => x.1)) reg

/-- `TunnelConnection.update_activity` (`tunnel_manager.py:40-42`). -/
def update_activity (t : Tunnel) (now : Nat) : Tunnel :=
  { t with last_active := now }

/-! ## Ingress proxy (`src/api/proxy_handler.py`) -/

/-- Observable outcome of `await asyncio.wait_for(response_future,
timeout)` in `proxy_request` (`proxy_handler.py:66-70`): a slot that is
never fulfilled within the window raises `asyncio.TimeoutError`; a slot
failed via `set_exception` re-raises that exception; a resolved slot
yields its payload. -/
inductive AwaitOutcome where
  | value (d : RespPayload)
  | raised (msg : String)
  | timedOut
deriving DecidableEq

/-- Bridge from the slot's state to what the awaiting proxy observes. -/
def awaitOutcomeOf : FutureState → AwaitOutcome
  | .pending => .timedOut
  | .resolved d => .value d
  | .failedExn m => .raised m

/-- What `proxy_request` sends the public caller. -/
inductive ProxyReply where
  | httpError (status : Nat) (detail : String)
  | forwarded (status : Nat) (body : Option (List Nat))
deriving DecidableEq

/-- The response phase of `proxy_request` (`proxy_handler.py:65-100`):
`asyncio.TimeoutError` → 504 (lines 71-74); an exception stored in the
future (e.g. `Exception("Tunnel disconnected")`) propagates out of
`wait_for`, is not an `HTTPException`, and lands in the generic handler
(lines 96-100) → 500 `Internal proxy error: <str(e)>`; a value is
deserialized and forwarded with the `x-tunnel-body-encoding` header
stripped (lines 76-91), a deserialization failure again reaching the
generic 500 handler. -/
def proxy_await_phase (out : AwaitOutcome) : ProxyReply :=
  match out with
  | .timedOut => .httpError 504 "Gateway timeout"
  | .raised m => .httpError 500 ("Internal proxy error: " ++ m)
  | .value d =>
      match deserialize_response_body ⟨d.body, d.marker⟩ with
      | .ok b => .forwarded d.status_code b
      | .error _ => .httpError 500 "Internal proxy error: binascii.Error"

/-! ## WebSocket handler (`src/api/tunnel_websocket.py`) -/

/-- The first message of the attachment protocol, as the handler
classifies it (`tunnel_websocket.py:26-47`): receive timeout, not valid
JSON, JSON without a truthy `auth_token`, or a token. -/
inductive AuthAttempt where
  | timeout
  | notJson
  | noToken
  | token (tok : String)

/-- Observable outcome of the handshake. -/
structure HandshakeResult where
  closeCode : Option Nat
  errorSent : Bool
  connectedSent : Bool
  detachCalled : Bool
  registry : Registry
deriving DecidableEq

/-- Handshake phase of `tunnel_connect` (`tunnel_websocket.py:22-70`):
timeout closes 1008 without an error envelope (lines 143-145); malformed
JSON or a missing token send an `error` envelope then close 1008 (lines
32-47); a rejected `connect_tunnel` sends `error` and closes 1008 (lines
50-57) — all of these `return` before the receive loop, so
`disconnect_tunnel` (line 141, in the loop's `finally`) is never called.
Acceptance sends `connected` and enters the loop. -/
def tunnel_connect_handshake (reg : Registry) (tid : String) (attempt : AuthAttempt)
    (ws now : Nat) : HandshakeResult :=
  match attempt with
  | .timeout => ⟨some 1008, false, false, false, reg⟩
  | .notJson => ⟨some 1008, true, false, false, reg⟩
  | .noToken => ⟨some 1008, true, false, false, reg⟩
  | .token tok =>
      let r := connect_tunnel reg tid tok ws now
      if r.2 then ⟨none, false, true, false, r.1⟩
      else ⟨some 1008, true, false, false, r.1⟩

/-! ## Tunnel client (`src/client/tunnel_client.py`) -/

/-- `headers.pop(k, None)` / key removal on a header dict. -/
def eraseKey (l : List (String × String)) (k : String) : List (String × String) :=
  l.filter (fun p => !(p.1 == k))

/-- `headers.get(k)` on a header dict. -/
def lookupKey (l : List (String × String)) (k : String) : Option String :=
  (l.find? (fun p => p.1 == k)).map (fun p => p.2)

/-- Request preparation in `TunnelClient.handle_request`
(`tunnel_client.py:126-143`): pop `host` and `x-tunnel-body-encoding`
from the headers, then build the body — checking the encoding marker in
the ALREADY-POPPED header dict.  Returns the headers and body bytes
passed to the local HTTP call; `.error` models a raised
`binascii.Error`. -/
def client_handle_request_prep (headers : List (String × String))
    (body : Option (List Nat)) :
    Except String (List (String × String) × Option (List Nat)) :=
  let h1 := eraseKey headers "host"
  let h2 := eraseKey h1 "x-tunnel-body-encoding"
  match body with
  | none => .ok (h2, none)
  | some s =>
      if s = [] then .ok (h2, none)
      else if lookupKey h2 "x-tunnel-body-encoding" = some "base64" then
        match b64Decode s with
        | some b => .ok (h2, some b)
        | none => .error "binascii.Error"
      else .ok (h2, some (utf8Encode s))

/-! ## Envelope parsing (`message_protocol.parse_tunnel_message`,
`tunnel_models.TunnelMessage`) -/

/-- JSON values, for modelling `model_validate_json` input. -/
inductive PyJson where
  | null
  | boolean (b : Bool)
  | num (n : Int)
  | str (s : String)
  | arr (l : List PyJson)
  | obj (fields : List (String × PyJson))

/-- Field lookup in a JSON object. -/
def jsonLookup (fields : List (String × PyJson)) (k : String) : Option PyJson :=
  (fields.find? (fun p => p.1 == k)).map (fun p => p.2)

/-- The parsed `TunnelMessage` (`tunnel_models.py:69-73`): `type` is a
plain `str` field with no enum constraint; `data` is `Optional[Dict]`
defaulting to `None`; `timestamp` is a `str` with a default factory
(`none` = defaulted). -/
structure TunnelMessageModel where
  type : String
  data : Option (List (String × PyJson))
  timestamp : Option String

/-- Pydantic validation of the `data` field: absent or `null` → `None`,
object → dict, anything else → `ValidationError`. -/
def pydanticData : Option PyJson → Except Unit (Option (List (String × PyJson)))
  | none => .ok none
  | some .null => .ok none
  | some (.obj d) => .ok (some d)
  | some _ => .error ()

/-- Pydantic validation of the `timestamp` field: absent → default
factory, string → itself, anything else → `ValidationError`. -/
def pydanticTimestamp : Option PyJson → Except Unit (Option String)
  | none => .ok none
  | some (.str s) => .ok (some s)
  | some _ => .error ()

/-- `parse_tunnel_message` (`message_protocol.py:171-181`) =
`TunnelMessage.model_validate_json`.  Input `none` models a string that
is not valid JSON; `.error ()` models `pydantic.ValidationError` (raised
alike for malformed JSON, a non-object document, a missing or non-string
`type`, and ill-typed `data`/`timestamp`).  No constraint whatsoever is
placed on the VALUE of `type`. -/
def parse_tunnel_message (input : Option PyJson) : Except Unit TunnelMessageModel :=
  match input with
  | some (.obj fields) =>
      match jsonLookup fields "type" with
      | some (.str t) =>
          match pydanticData (jsonLookup fields "data"),
              pydanticTimestamp (jsonLookup fields "timestamp") with
          | .ok d, .ok ts => .ok ⟨t, d, ts⟩
          | _, _ => .error ()
      | _ => .error ()
  | _ => .error ()

/-- The enumerated envelope types of the spec (§3). -/
def tunnel_message_types : List String :=
  ["auth", "connected", "request", "response", "ping", "pong", "error"]

/-! ## Control API authentication (`src/api/tunnel_api.py`) -/

/-- Result of the `authenticate_api_key` dependency. -/
inductive ApiAuthResult where
  | reject (status : Nat)
  | accept (key : String)
deriving DecidableEq

/-- `authenticate_api_key` (`tunnel_api.py:24-32`): `Header(None)` makes a
missing `x-api-key` `None`; `if not api_key` is also true for the empty
string → 401; otherwise membership in
`[REQUIRED_MATCHING_KEY, REQUIRED_MATCHING_ADMIN_KEY]` is checked → 403
on mismatch. -/
def authenticate_api_key (api_key : Option String)
    (required_matching_key required_matching_admin_key : String) : ApiAuthResult :=
  match api_key with
  | none => .reject 401
  | some s =>
      if s = "" then .reject 401
      else if s = required_matching_key ∨ s = required_matching_admin_key then .accept s
      else .reject 403

/-! ## Statement-level definitions -/

/-- Registry invariant of the spec (§3, invariant 2): a held tunnel has
status ACTIVE exactly when its channel is attached. -/
def registryInv (reg : Registry) : Prop :=
  ∀ p ∈ reg, (p.2.status = TunnelStatus.active ↔ p.2.websocket ≠ none)

/-- Binary rule as the C6 claim words it (prefix match on `image/`,
`video/`, `audio/`, or equality with one of the four `application/*`
types); stated from the claim, to be compared with the code's
classifiers. -/
def spec_binary_prefix_rule (ct : List Nat) : Bool :=
  (pstr "image/").isPrefixOf ct || (pstr "video/").isPrefixOf ct ||
  (pstr "audio/").isPrefixOf ct || ct == pstr "application/octet-stream" ||
  ct == pstr "application/pdf" || ct == pstr "application/zip" ||
  ct == pstr "application/x-tar"

/-! ## Claim theorems -/

/-- C1: the claim says every expired tunnel is deleted by one run of
`cleanup_expired_tunnels`.  In fact the sweep holds the registry lock and
then awaits `delete_tunnel`, which re-acquires the same non-reentrant
`asyncio.Lock`: with any expired tunnel present (here one DISCONNECTED
tunnel) the sweep deadlocks (`none`) and deletes nothing, while the
explicit-delete path with the lock free would remove it. -/
theorem cleanup_expired_deadlocks :
    is_expired 100 60
        { tunnel_id := "t1", auth_token := "tok", name := none, local_port := none,
          created_at := 0, last_active := 0, websocket := none,
          status := .disconnected, pending_requests := [] } = true ∧
    cleanup_expired_tunnels
        [("t1",
          { tunnel_id := "t1", auth_token := "tok", name := none, local_port := none,
            created_at := 0, last_active := 0, websocket := none,
            status := .disconnected, pending_requests := [] })] 100 60 = none ∧
    (delete_tunnel false
        [("t1",
          { tunnel_id := "t1", auth_token := "tok", name := none, local_port := none,
            created_at := 0, last_active := 0, websocket := none,
            status := .disconnected, pending_requests := [] })] "t1").map
      (fun x => (x.1, x.2.1)) = some ([], true) := by
  refine ⟨rfl, rfl, rfl⟩

/-- C2 counterexample: `connect_tunnel` accepts a matching-token attach
both when a channel is already attached (tunnel ACTIVE with websocket 7)
and when the tunnel is DISCONNECTED — the claim says both are rejected
with `false`. -/
theorem connect_tunnel_reattach_accepted :
    (connect_tunnel
        [("t",
          { tunnel_id := "t", auth_token := "tok", name := none, local_port := none,
            created_at := 0, last_active := 0, websocket := some 7,
            status := .active, pending_requests := [] })] "t" "tok" 9 5).2 = true ∧
    (connect_tunnel
        [("d",
          { tunnel_id := "d", auth_token := "tok", name := none, local_port := none,
            created_at := 0, last_active := 0, websocket := none,
            status := .disconnected, pending_requests := [] })] "d" "tok" 9 5).2 = true := by
  exact ⟨rfl, rfl⟩

/-- C2 (amended): `connect_tunnel` returns `false` only for an unknown
tunnel or a token mismatch; whenever the tunnel exists and the token
matches it attaches the channel and sets ACTIVE, regardless of an
already-attached channel or DISCONNECTED status. -/
theorem connect_tunnel_no_reattach_check (reg : Registry) (tid tok : String)
    (ws now : Nat) :
    (lookupTunnel reg tid = none → connect_tunnel reg tid tok ws now = (reg, false)) ∧
    (∀ t, lookupTunnel reg tid = some t → t.auth_token ≠ tok →
      connect_tunnel reg tid tok ws now = (reg, false)) ∧
    (∀ t, lookupTunnel reg tid = some t → t.auth_token = tok →
      connect_tunnel reg tid tok ws now =
        (updateTunnel reg tid (fun u =>
          { u with websocket := some ws, status := .active, last_active := now }),
          true)) := by
  refine ⟨fun h => ?_, fun t h htok => ?_, fun t h htok => ?_⟩
  · simp [connect_tunnel, h]
  · simp [connect_tunnel, h, htok]
  · simp [connect_tunnel, h, htok]

/-- C2 witness: the amended theorem applied to a DISCONNECTED tunnel with
the matching token: the attach succeeds. -/
theorem connect_tunnel_no_reattach_check_witness :
    (connect_tunnel
        [("d",
          { tunnel_id := "d", auth_token := "tok", name := none, local_port := none,
            created_at := 0, last_active := 0, websocket := none,
            status := .disconnected, pending_requests := [] })] "d" "tok" 9 5).2 = true := by
  rw [(connect_tunnel_no_reattach_check
      [("d",
        { tunnel_id := "d", auth_token := "tok", name := none, local_port := none,
          created_at := 0, last_active := 0, websocket := none,
          status := .disconnected, pending_requests := [] })] "d" "tok" 9 5).2.2
    { tunnel_id := "d", auth_token := "tok", name := none, local_port := none,
      created_at := 0, last_active := 0, websocket := none,
      status := .disconnected, pending_requests := [] } rfl rfl]

/-- C3: the claim says the client base64-decodes the body when the
envelope carries `x-tunnel-body-encoding: base64`.  The code pops that
header from the dict BEFORE checking it, so the check reads the already
popped dict and never fires: for the S2 envelope (body `"AAEC"`, marker
present) the local service receives the ASCII bytes of the base64 text
(`[65,65,69,67]`) instead of the decoded bytes `[0,1,2]` that the marker
prescribes.  Both headers are indeed stripped. -/
theorem client_never_decodes_base64_body :
    client_handle_request_prep
        [("host", "example.com"), ("content-type", "application/octet-stream"),
          ("x-tunnel-body-encoding", "base64")]
        (some (pstr "AAEC")) =
      .ok ([("content-type", "application/octet-stream")], some [65, 65, 69, 67]) ∧
    b64Decode (pstr "AAEC") = some [0, 1, 2] ∧
    [65, 65, 69, 67] ≠ [0, 1, 2] := by
  refine ⟨rfl, rfl, by decide⟩

/-- C4 counterexample: when the owner channel closes mid-flight,
`disconnect_tunnel` fails the pending slot with
`Exception("Tunnel disconnected")`, and the proxy awaiting that slot
answers 500 (generic `Internal proxy error` handler), not the 502 the
claim states — there is no 502 reply for a failed slot at all. -/
theorem disconnected_pending_gets_500_not_502 :
    disconnect_tunnel
        [("t",
          { tunnel_id := "t", auth_token := "tok", name := none, local_port := none,
            created_at := 0, last_active := 0, websocket := some 3,
            status := .active, pending_requests := [("r1", .pending)] })] "t" =
      [("t",
        { tunnel_id := "t", auth_token := "tok", name := none, local_port := none,
          created_at := 0, last_active := 0, websocket := none,
          status := .disconnected,
          pending_requests := [("r1", .failedExn "Tunnel disconnected")] })] ∧
    proxy_await_phase (awaitOutcomeOf (.failedExn "Tunnel disconnected")) =
      .httpError 500 "Internal proxy error: Tunnel disconnected" ∧
    (∀ detail, proxy_await_phase (awaitOutcomeOf (.failedExn "Tunnel disconnected")) ≠
      .httpError 502 detail) := by
  refine ⟨rfl, rfl, fun detail h => ?_⟩
  simp [proxy_await_phase, awaitOutcomeOf] at h

/-- C4 (amended): a pending slot failed by `disconnect_tunnel` /
`delete_tunnel` (exception message `msg`) makes the awaiting proxy
respond 500 `Internal proxy error: <msg>`; 502 is reserved for the
send-failure path. -/
theorem proxy_failed_slot_returns_500 (msg rid : String)
    (l : List (String × FutureState)) (h : (rid, FutureState.pending) ∈ l) :
    (rid, FutureState.failedExn msg) ∈ failPendingWith msg l ∧
    proxy_await_phase (awaitOutcomeOf (.failedExn msg)) =
      .httpError 500 ("Internal proxy error: " ++ msg) := by
  constructor
  · have := List.mem_map_of_mem
      (fun p : String × FutureState => match p.2 with
        | .pending => (p.1, FutureState.failedExn msg)
        | _ => p) h
    simpa [failPendingWith] using this
  · rfl

/-- C4 witness: the amended theorem at the concrete one-slot table of the
counterexample scenario. -/
theorem proxy_failed_slot_returns_500_witness :
    ("r1", FutureState.failedExn "Tunnel disconnected") ∈
      failPendingWith "Tunnel disconnected" [("r1", FutureState.pending)] ∧
    proxy_await_phase (awaitOutcomeOf (.failedExn "Tunnel disconnected")) =
      .httpError 500 "Internal proxy error: Tunnel disconnected" :=
  proxy_failed_slot_returns_500 "Tunnel disconnected" "r1"
    [("r1", FutureState.pending)] (by simp)

lemma deserialize_response_eq_request (sb : SerializedBody) :
    deserialize_response_body sb = deserialize_request_body sb := rfl

/-- C5: body round-trip.  For every byte string `B` and content-type `C`,
serializing (request direction at the ingress, response direction in the
client) and then deserializing returns exactly `B` — an empty `B` travels
as an absent body.  Binary-typed or non-UTF-8 bodies are the ones that
travel base64-encoded with the marker set. -/
theorem body_roundtrip (C B : List Nat) (hB : ∀ b ∈ B, b < 256) :
    deserialize_request_body (serialize_request_body C B) =
      .ok (if B = [] then none else some B) ∧
    deserialize_response_body (client_encode_response_body C B) =
      .ok (if B = [] then none else some B) ∧
    (B ≠ [] →
      ((serialize_request_body C B).marker = true ↔
        (is_binary_content C = true ∨ utf8Decode B = none))) := by
  refine ⟨?_, ?_, ?_⟩
  · by_cases h0 : B = []
    · subst h0
      simp [serialize_request_body, deserialize_request_body]
    · by_cases hbin : is_binary_content C
      · simp only [serialize_request_body, if_neg h0, if_pos hbin]
        rw [deserialize_base64_roundtrip hB, if_neg h0]
      · cases hdec : utf8Decode B with
        | some s =>
            simp only [serialize_request_body, if_neg h0, if_neg hbin, hdec]
            rw [deserialize_utf8_roundtrip hdec, if_neg h0]
        | none =>
            simp only [serialize_request_body, if_neg h0, if_neg hbin, hdec]
            rw [deserialize_base64_roundtrip hB, if_neg h0]
  · rw [deserialize_response_eq_request]
    by_cases hbin : client_is_binary C
    · simp only [client_encode_response_body, if_pos hbin]
      exact deserialize_base64_roundtrip hB
    · cases hdec : utf8Decode B with
      | some s =>
          simp only [client_encode_response_body, if_neg hbin, hdec]
          exact deserialize_utf8_roundtrip hdec
      | none =>
          simp only [client_encode_response_body, if_neg hbin, hdec]
          exact deserialize_base64_roundtrip hB
  · intro h0
    by_cases hbin : is_binary_content C = true
    · simp [serialize_request_body, if_neg h0, hbin]
    · cases hdec : utf8Decode B with
      | some s => simp [serialize_request_body, if_neg h0, hbin, hdec]
      | none => simp [serialize_request_body, if_neg h0, hbin, hdec]

/-- C5 witness: the round trip at `C = application/octet-stream`,
`B = 0x00 0x01 0x02` (scenario S2): the body travels base64 and
deserializes back to the original bytes. -/
theorem body_roundtrip_witness :
    deserialize_request_body
        (serialize_request_body (pstr "application/octet-stream") [0, 1, 2]) =
      .ok (some [0, 1, 2]) := by
  have h := (body_roundtrip (pstr "application/octet-stream") [0, 1, 2] (by decide)).1
  simpa using h

/-- C6 counterexample: the classifiers are substring tests, not the
prefix/equality rule of the claim — `x-image/png` is classified binary by
the server although it matches no prefix and no listed equality — and the
client's list lacks `application/zip` (and `application/x-tar`), so the
two classifiers do not even agree: `application/zip` is binary per the
claim and per the server but not per the client. -/
theorem binary_classifier_not_prefix_rule :
    is_binary_content (pstr "x-image/png") = true ∧
    spec_binary_prefix_rule (pstr "x-image/png") = false ∧
    client_is_binary (pstr "application/zip") = false ∧
    spec_binary_prefix_rule (pstr "application/zip") = true := by
  refine ⟨by decide, by decide, by decide, by decide⟩

/-- C6 (amended): `is_binary_content` returns true exactly when one of
its seven listed strings occurs as a substring of the ASCII-lowercased
content-type, and `_is_binary` likewise for its five-entry list (without
`application/zip` and `application/x-tar`). -/
theorem binary_classifiers_are_substring_tests (ct : List Nat) :
    (is_binary_content ct = true ↔ ∃ bt ∈ binary_types, bt <:+: pyLower ct) ∧
    (client_is_binary ct = true ↔ ∃ bt ∈ client_binary_types, bt <:+: pyLower ct) := by
  constructor
  · simp [is_binary_content, List.any_eq_true]
  · simp [client_is_binary, List.any_eq_true]

/-- C7: a wrong-token attach attempt returns `false` and leaves the
registry exactly unchanged (no status change, no lockout, no counter);
the handshake then sends an `error` envelope and closes with the policy
violation code 1008 without calling `disconnect_tunnel`; afterwards the
correct token still succeeds. -/
theorem wrong_token_rejected_without_state_change (reg : Registry)
    (tid tok : String) (ws now : Nat) (t : Tunnel)
    (hlook : lookupTunnel reg tid = some t) (hne : tok ≠ t.auth_token) :
    connect_tunnel reg tid tok ws now = (reg, false) ∧
    tunnel_connect_handshake reg tid (.token tok) ws now =
      ⟨some 1008, true, false, false, reg⟩ ∧
    (connect_tunnel reg tid t.auth_token ws now).2 = true := by
  have hne' : t.auth_token ≠ tok := fun h => hne h.symm
  have h1 : connect_tunnel reg tid tok ws now = (reg, false) := by
    simp [connect_tunnel, hlook, hne']
  refine ⟨h1, ?_, ?_⟩
  · simp [tunnel_connect_handshake, h1]
  · simp [connect_tunnel, hlook]

/-- C7 witness: a CONNECTING tunnel, wrong token `"bad"`: rejected with
close 1008, no detach, registry unchanged; the correct token succeeds. -/
theorem wrong_token_rejected_without_state_change_witness :
    connect_tunnel
        [("t",
          { tunnel_id := "t", auth_token := "tok", name := none, local_port := none,
            created_at := 0, last_active := 0, websocket := none,
            status := .connecting, pending_requests := [] })] "t" "bad" 9 5 =
      ([("t",
        { tunnel_id := "t", auth_token := "tok", name := none, local_port := none,
          created_at := 0, last_active := 0, websocket := none,
          status := .connecting, pending_requests := [] })], false) ∧
    tunnel_connect_handshake
        [("t",
          { tunnel_id := "t", auth_token := "tok", name := none, local_port := none,
            created_at := 0, last_active := 0, websocket := none,
            status := .connecting, pending_requests := [] })] "t"
        (.token "bad") 9 5 =
      ⟨some 1008, true, false, false,
        [("t",
          { tunnel_id := "t", auth_token := "tok", name := none, local_port := none,
            created_at := 0, last_active := 0, websocket := none,
            status := .connecting, pending_requests := [] })]⟩ ∧
    (connect_tunnel
        [("t",
          { tunnel_id := "t", auth_token := "tok", name := none, local_port := none,
            created_at := 0, last_active := 0, websocket := none,
            status := .connecting, pending_requests := [] })] "t" "tok" 9 5).2 = true :=
  wrong_token_rejected_without_state_change
    [("t",
      { tunnel_id := "t", auth_token := "tok", name := none, local_port := none,
        created_at := 0, last_active := 0, websocket := none,
        status := .connecting, pending_requests := [] })] "t" "bad" 9 5
    { tunnel_id := "t", auth_token := "tok", name := none, local_port := none,
      created_at := 0, last_active := 0, websocket := none,
      status := .connecting, pending_requests := [] } rfl (by decide)

/-- C8 counterexample: an envelope whose `type` is `"bogus"` — outside the
enumerated set — parses successfully (`TunnelMessage.type` is a plain
`str` with no enum constraint), while the claim requires an UnknownType
failure.  Moreover not every other input succeeds: a non-dict `data`
fails validation. -/
theorem parse_accepts_unknown_type :
    parse_tunnel_message (some (.obj [("type", .str "bogus")])) =
      .ok ⟨"bogus", none, none⟩ ∧
    "bogus" ∉ tunnel_message_types ∧
    parse_tunnel_message (some (.obj [("type", .str "auth"), ("data", .num 5)])) =
      .error () := by
  refine ⟨rfl, by decide, rfl⟩

/-- C8 (amended): `parse_tunnel_message` fails on input that is not valid
JSON, is not an object, or lacks a string `type` (or has ill-typed
`data`/`timestamp`); it succeeds for EVERY envelope whose `type` is a
string — enumerated or not — leaving unknown types to be logged and
dropped by the receive loop. -/
theorem parse_tunnel_message_validation (fields : List (String × PyJson)) :
    parse_tunnel_message none = .error () ∧
    (jsonLookup fields "type" = none →
      parse_tunnel_message (some (.obj fields)) = .error ()) ∧
    (∀ t d ts, jsonLookup fields "type" = some (.str t) →
      pydanticData (jsonLookup fields "data") = .ok d →
      pydanticTimestamp (jsonLookup fields "timestamp") = .ok ts →
      parse_tunnel_message (some (.obj fields)) = .ok ⟨t, d, ts⟩) := by
  refine ⟨rfl, fun h => ?_, fun t d ts ht hd hts => ?_⟩
  · simp [parse_tunnel_message, h]
  · simp [parse_tunnel_message, ht, hd, hts]

/-- C8 witness: the amended theorem at the envelope
`{"type": "bogus"}`: it parses successfully. -/
theorem parse_tunnel_message_validation_witness :
    parse_tunnel_message (some (.obj [("type", .str "bogus")])) =
      .ok ⟨"bogus", none, none⟩ :=
  (parse_tunnel_message_validation [("type", .str "bogus")]).2.2
    "bogus" none none rfl rfl rfl

lemma registryInv_updateTunnel {reg : Registry} (hinv : registryInv reg)
    (tid : String) (f : Tunnel → Tunnel)
    (hf : ∀ t, ((f t).status = TunnelStatus.active ↔ (f t).websocket ≠ none)) :
    registryInv (updateTunnel reg tid f) := by
  intro p hp
  simp only [updateTunnel, List.mem_map] at hp
  obtain ⟨q, hq, rfl⟩ := hp
  by_cases h : q.1 == tid
  · simpa [h] using hf q.2
  · simpa [h] using hinv q hq

/-- C9: every registry operation preserves the invariant that a stored
tunnel is ACTIVE exactly when its websocket is attached; a freshly
constructed tunnel is CONNECTING with no websocket. -/
theorem registry_operations_preserve_invariant (reg : Registry)
    (tid tok : String) (name : Option String) (lp : Option Nat) (ws now : Nat) :
    ((mkTunnelConnection tid tok name lp now).status = TunnelStatus.connecting ∧
      (mkTunnelConnection tid tok name lp now).websocket = none) ∧
    (registryInv reg → registryInv (create_tunnel reg tid tok name lp now).1) ∧
    (registryInv reg → registryInv (connect_tunnel reg tid tok ws now).1) ∧
    (registryInv reg → registryInv (disconnect_tunnel reg tid)) ∧
    (registryInv reg → registryInv (delete_tunnel_locked reg tid).1) := by
  refine ⟨⟨rfl, rfl⟩, fun hinv => ?_, fun hinv => ?_, fun hinv => ?_, fun hinv => ?_⟩
  · intro p hp
    simp only [create_tunnel, List.mem_append, List.mem_singleton] at hp
    rcases hp with hp | rfl
    · exact hinv p hp
    · simp [mkTunnelConnection]
  · cases hl : lookupTunnel reg tid with
    | none => simpa [connect_tunnel, hl] using hinv
    | some t =>
        by_cases htok : t.auth_token ≠ tok
        · simpa [connect_tunnel, hl, htok] using hinv
        · simp only [connect_tunnel, hl]
          rw [if_neg htok]
          exact registryInv_updateTunnel hinv tid
            (fun u => { u with websocket := some ws, status := .active, last_active := now })
            (fun u => by simp)
  · cases hl : lookupTunnel reg tid with
    | none => simpa [disconnect_tunnel, hl] using hinv
    | some t =>
        simp only [disconnect_tunnel, hl]
        exact registryInv_updateTunnel hinv tid
          (fun u =>
            { u with
              websocket := none
              status := .disconnected
              pending_requests :=
                failPendingWith "Tunnel disconnected" u.pending_requests })
          (fun u => by simp)
  · cases hl : lookupTunnel reg tid with
    | none => simpa [delete_tunnel_locked, hl] using hinv
    | some t =>
        simp only [delete_tunnel_locked, hl]
        intro p hp
        simp only [List.mem_filter] at hp
        exact hinv p hp.1

/-- C9 witness: the preservation conjuncts applied to a concrete
one-tunnel registry that satisfies the invariant. -/
theorem registry_operations_preserve_invariant_witness :
    registryInv (connect_tunnel
      [("t",
        { tunnel_id := "t", auth_token := "tok", name := none, local_port := none,
          created_at := 0, last_active := 0, websocket := none,
          status := .connecting, pending_requests := [] })] "t" "tok" 9 5).1 :=
  (registry_operations_preserve_invariant
    [("t",
      { tunnel_id := "t", auth_token := "tok", name := none, local_port := none,
        created_at := 0, last_active := 0, websocket := none,
        status := .connecting, pending_requests := [] })]
    "t" "tok" none none 9 5).2.2.1
    (by intro p hp; simp only [List.mem_singleton] at hp; subst hp; simp)

/-- C10: the control API treats an empty `x-api-key` like a missing one —
401 before any key comparison (in particular, 401 even when an empty
header would string-match the empty configured keys) — and with both
shared secrets left at their empty defaults no request can authenticate:
every outcome is a 401 or 403 rejection. -/
theorem empty_api_key_never_authenticates (k1 k2 : String) :
    authenticate_api_key none k1 k2 = .reject 401 ∧
    authenticate_api_key (some "") k1 k2 = .reject 401 ∧
    authenticate_api_key (some "") "" "" = .reject 401 ∧
    (∀ s, authenticate_api_key (some s) "" "" = .reject 401 ∨
      authenticate_api_key (some s) "" "" = .reject 403) := by
  refine ⟨rfl, rfl, rfl, fun s => ?_⟩
  by_cases hs : s = ""
  · subst hs; exact Or.inl rfl
  · right
    simp [authenticate_api_key, hs]

/-- C10 witness: the theorem at concrete keys, and the no-authentication
consequence for a concrete nonempty header under empty defaults. -/
theorem empty_api_key_never_authenticates_witness :
    authenticate_api_key (some "") "secret" "admin" = .reject 401 ∧
    (authenticate_api_key (some "guess") "" "" = .reject 401 ∨
      authenticate_api_key (some "guess") "" "" = .reject 403) :=
  ⟨(empty_api_key_never_authenticates "secret" "admin").2.1,
    (empty_api_key_never_authenticates "" "").2.2.2 "guess"⟩
